import Mathlib

/-!
# Verification of `src/sample.py`

The script reads the process argument vector `sys.argv`, and

* if `len(sys.argv) == 4` prints `"Your words:"` followed by
  `sys.argv[1]`, `sys.argv[2]`, `sys.argv[3]` (Python `print` joins its
  arguments with single spaces and appends a newline);
* otherwise prints `"Give 3 words!"`.

We embed the script shallowly: the argument vector is a `List String`
(element 0 being the invocation name, as in `sys.argv`), Python's
`print` is modelled by joining with `" "` and appending `"\n"`, and the
fallibility of Python list indexing (`IndexError`) is modelled with
`Option`: `print_words` returns `none` exactly when an out-of-bounds
index would be accessed.
-/

namespace Sample

/-- Python `print(a₁, …, aₙ)`: the arguments joined with single spaces,
followed by a newline. -/
def python_print (args : List String) : String :=
  String.intercalate " " args ++ "\n"

/-- `print_words` from `src/sample.py`.  `argv` is the full `sys.argv`,
including the invocation name at position 0.  A `none` result models an
uncaught `IndexError` (which never occurs, as proved below). -/
def print_words (argv : List String) : Option String :=
  if argv.length = 4 then
    match argv.get? 1, argv.get? 2, argv.get? 3 with
    | some a, some b, some c => some (python_print ["Your words:", a, b, c])
    | _, _, _ => none
  else
    some (python_print ["Give 3 words!"])

/-- The observable result of one run of the script. -/
structure ProcResult where
  stdout : String
  stderr : String
  exitCode : Nat
  finalArgv : List String
  deriving DecidableEq, Repr

/-- Running `python sample.py` with argument vector `argv` and
environment `env`: the `__main__` guard calls `print_words()` and the
interpreter then exits with status 0.  The script never touches the
environment, never writes to stderr, and never assigns to `sys.argv`,
so the result records `env` unused, an empty stderr and the unchanged
argument vector.  `none` would model a crash (nonzero exit via an
uncaught exception). -/
def run_script (argv : List String) (_env : List (String × String)) :
    Option ProcResult :=
  (print_words argv).map (fun out => ⟨out, "", 0, argv⟩)

/-- Number of newline characters in a string. -/
def countNL (s : String) : Nat :=
  s.data.count '\n'

-- sanity checks on concrete inputs (spec §8 scenarios)
example :
    print_words ["sample.py", "apple", "banana", "cherry"] =
      some "Your words: apple banana cherry\n" := by decide

example : print_words ["sample.py", "one", "two"] = some "Give 3 words!\n" := by
  decide

example : print_words ["sample.py"] = some "Give 3 words!\n" := by decide

example :
    print_words ["sample.py", "one", "two", "three", "four"] =
      some "Give 3 words!\n" := by decide

/-! ## Helper lemmas -/

lemma exists_four {α : Type} (l : List α) (h : l.length = 4) :
    ∃ w a b c, l = [w, a, b, c] := by
  cases l with
  | nil => simp at h
  | cons w t =>
    have ht : t.length = 3 := by simpa using h
    obtain ⟨a, b, c, rfl⟩ := List.length_eq_three.mp ht
    exact ⟨w, a, b, c, rfl⟩

lemma pw_len4 (w a b c : String) :
    print_words [w, a, b, c] =
      some ("Your words: " ++ a ++ " " ++ b ++ " " ++ c ++ "\n") := by
  simp [print_words, python_print, String.intercalate, String.intercalate.go,
    String.append_assoc]

lemma pw_ne4 (argv : List String) (h : argv.length ≠ 4) :
    print_words argv = some "Give 3 words!\n" := by
  simp only [print_words, if_neg h]
  decide

lemma yourWords_ne_give (a b c : String) :
    "Your words: " ++ a ++ " " ++ b ++ " " ++ c ++ "\n" ≠ "Give 3 words!\n" := by
  intro h
  have h2 := congrArg String.data h
  simp [String.data_append] at h2

lemma countNL_append (s t : String) :
    countNL (s ++ t) = countNL s + countNL t := by
  simp [countNL, String.data_append, List.count_append]

/-! ## Claims -/

/-- Claim C1: with exactly 3 user-supplied positional arguments `a b c`
(so `sys.argv` is the invocation name followed by them), the program
writes exactly the string "Your words: a b c" — the label, a space, and
the three arguments joined with single spaces — followed by a newline. -/
theorem print_words_three_args (prog a b c : String) :
    print_words [prog, a, b, c] =
      some ("Your words: " ++ a ++ " " ++ b ++ " " ++ c ++ "\n") :=
  pw_len4 prog a b c

/-- Claim C2: with any user-supplied argument count other than 3
(`sys.argv` is the invocation name followed by the arguments), the
program writes exactly the literal "Give 3 words!" followed by a
newline, as a normal alternate output of the same `print` branch. -/
theorem print_words_wrong_count (prog : String) (args : List String)
    (h : args.length ≠ 3) :
    print_words (prog :: args) = some "Give 3 words!\n" := by
  refine pw_ne4 (prog :: args) ?_
  simpa using h

/-- Witness for C2 at the spec scenario `one two`. -/
theorem print_words_wrong_count_witness :
    print_words ["sample.py", "one", "two"] = some "Give 3 words!\n" :=
  print_words_wrong_count "sample.py" ["one", "two"] (by decide)

/-- Claim C3: the guard counts the full `sys.argv` including element 0:
the "Give 3 words!" branch is taken exactly when the whole list does not
have length 4, whatever element 0 contains — in particular a bare list
of 3 elements with no invocation name still prints "Give 3 words!". -/
theorem print_words_guard_counts_whole_argv (argv : List String) :
    print_words argv = some "Give 3 words!\n" ↔ argv.length ≠ 4 := by
  constructor
  · intro h heq
    obtain ⟨w, a, b, c, rfl⟩ := exists_four argv heq
    rw [pw_len4] at h
    exact yourWords_ne_give a b c (Option.some.inj h)
  · exact pw_ne4 argv

/-- Claim C4: the program is total over every possible argument list:
`print_words` always returns an output (the `none` value modelling an
uncaught exception is never produced), and that output comes from
exactly one of the two `print` branches. -/
theorem print_words_total (argv : List String) :
    ∃ out, print_words argv = some out ∧
      (out = "Give 3 words!\n" ∨
        ∃ a b c, out = "Your words: " ++ a ++ " " ++ b ++ " " ++ c ++ "\n") := by
  by_cases h : argv.length = 4
  · obtain ⟨w, a, b, c, rfl⟩ := exists_four argv h
    exact ⟨_, pw_len4 w a b c, Or.inr ⟨a, b, c, rfl⟩⟩
  · exact ⟨_, pw_ne4 argv h, Or.inl rfl⟩

/-- Claim C5: every invocation terminates normally with exit status 0;
no argument vector and no environment reaches a nonzero-exit path. -/
theorem run_script_exit_zero (argv : List String)
    (env : List (String × String)) :
    ∃ r, run_script argv env = some r ∧ r.exitCode = 0 := by
  by_cases h : argv.length = 4
  · obtain ⟨w, a, b, c, rfl⟩ := exists_four argv h
    exact ⟨_, by rw [run_script, pw_len4]; rfl, rfl⟩
  · exact ⟨_, by rw [run_script, pw_ne4 argv h]; rfl, rfl⟩

/-- Counterexample to Claim C6 as stated: an argument may itself contain
a newline, in which case the single `print` call emits more than one
line.  Here argument 1 is "x\ny" and the output holds two newline
characters, i.e. two lines. -/
theorem print_words_two_lines :
    print_words ["sample.py", "x\ny", "c", "d"] =
        some "Your words: x\ny c d\n" ∧
      countNL "Your words: x\ny c d\n" = 2 := by
  decide

/-- Claim C6 (amended): for every invocation whose user-supplied
arguments contain no newline character, the program writes exactly one
line — a string with no interior newline, terminated by a single final
newline — in either branch. -/
theorem print_words_single_line (argv : List String)
    (h : ∀ s ∈ argv.drop 1, '\n' ∉ s.data) :
    ∃ out, print_words argv = some out ∧
      ∃ t, out = t ++ "\n" ∧ countNL t = 0 := by
  by_cases hlen : argv.length = 4
  · obtain ⟨w, a, b, c, rfl⟩ := exists_four argv hlen
    have ha : countNL a = 0 := by
      simpa [countNL, List.count_eq_zero] using h a (by simp)
    have hb : countNL b = 0 := by
      simpa [countNL, List.count_eq_zero] using h b (by simp)
    have hc : countNL c = 0 := by
      simpa [countNL, List.count_eq_zero] using h c (by simp)
    refine ⟨_, pw_len4 w a b c,
      "Your words: " ++ a ++ " " ++ b ++ " " ++ c, rfl, ?_⟩
    simp [countNL_append, ha, hb, hc]
    decide
  · refine ⟨_, pw_ne4 argv hlen, "Give 3 words!", rfl, by decide⟩

/-- Witness for the amended C6 at the spec scenario
`apple banana cherry`. -/
theorem print_words_single_line_witness :
    ∃ out, print_words ["sample.py", "apple", "banana", "cherry"] = some out ∧
      ∃ t, out = t ++ "\n" ∧ countNL t = 0 :=
  print_words_single_line ["sample.py", "apple", "banana", "cherry"]
    (by decide)

/-- Claim C7: the run is deterministic and depends on the argument list
alone: the environment (and any other hidden input) has no influence, so
two invocations with identical argument lists give identical results. -/
theorem run_script_deterministic (argv : List String)
    (env₁ env₂ : List (String × String)) :
    run_script argv env₁ = run_script argv env₂ := rfl

/-- Claim C8: the only effect of a run is the write to standard output:
standard error stays empty and the argument vector is left exactly as it
was supplied — the model gives the run no other channel, matching the
source, which performs a single `print` and no other operation. -/
theorem run_script_effects (argv : List String)
    (env : List (String × String)) (r : ProcResult)
    (h : run_script argv env = some r) :
    r.stderr = "" ∧ r.finalArgv = argv := by
  obtain ⟨out, -, rfl⟩ := Option.map_eq_some'.mp h
  exact ⟨rfl, rfl⟩

/-- Witness for C8 at the empty-argument scenario. -/
theorem run_script_effects_witness :
    (⟨"Give 3 words!\n", "", 0, ["sample.py"]⟩ : ProcResult).stderr = "" ∧
      (⟨"Give 3 words!\n", "", 0, ["sample.py"]⟩ : ProcResult).finalArgv =
        ["sample.py"] :=
  run_script_effects ["sample.py"] []
    ⟨"Give 3 words!\n", "", 0, ["sample.py"]⟩ (by decide)

/-- Claim C9: the indexed accesses at positions 1, 2, 3 happen only
under the length-4 guard, where each is in bounds: the out-of-bounds
(`none`) branch of the Option-returning indexing is unreachable, and the
fetched elements are exactly what gets printed. -/
theorem print_words_index_in_bounds (argv : List String)
    (h : argv.length = 4) :
    ∃ a b c, argv.get? 1 = some a ∧ argv.get? 2 = some b ∧
      argv.get? 3 = some c ∧
      print_words argv = some (python_print ["Your words:", a, b, c]) := by
  obtain ⟨w, a, b, c, rfl⟩ := exists_four argv h
  refine ⟨a, b, c, rfl, rfl, rfl, ?_⟩
  simp [print_words]

/-- Witness for C9 at the spec scenario `apple banana cherry`. -/
theorem print_words_index_in_bounds_witness :
    ∃ a b c,
      (["sample.py", "apple", "banana", "cherry"] : List String).get? 1 =
          some a ∧
        (["sample.py", "apple", "banana", "cherry"] : List String).get? 2 =
          some b ∧
        (["sample.py", "apple", "banana", "cherry"] : List String).get? 3 =
          some c ∧
        print_words ["sample.py", "apple", "banana", "cherry"] =
          some (python_print ["Your words:", a, b, c]) :=
  print_words_index_in_bounds ["sample.py", "apple", "banana", "cherry"]
    (by decide)

/-- Claim C10: the success output is not injective in the three
arguments: the distinct triples ("a b", "c", "d") and ("a", "b c", "d")
both print "Your words: a b c d". -/
theorem print_words_not_injective :
    print_words ["p", "a b", "c", "d"] = print_words ["p", "a", "b c", "d"] ∧
      (("a b", "c", "d") : String × String × String) ≠ ("a", "b c", "d") ∧
      print_words ["p", "a b", "c", "d"] = some "Your words: a b c d\n" := by
  decide

end Sample
